import Mathlib

/-!
Verification of the Par2Guard job-execution engine (`par2guard.py`).

This file gives a shallow embedding of the core `Runner` logic:

* `keep_tail` / `keepTailAll` — the bounded trailing-output window kept by the
  worker in `Runner._start` (lines 403-406 of the source);
* `summarize_one` — the outcome classifier `Runner._summarize_one`
  (lines 497-566), made explicit in the one piece of runner state it reads,
  the `_cancel_requested` flag;
* `format_summary` — `Runner._format_summary` (lines 568-619);
* `addResult` — the `self._results[classification].append(label)` update in
  `Runner._start` (lines 486-489), returning `none` on a missing key (the
  Python `KeyError` case);
* `runJobs` / `runManyTrace` — the sequence of strings delivered to the
  `on_done_msg` callback when a batch enqueued by `Runner.run_many`
  (lines 300-333) is driven to completion by the `Runner._kick` /
  `Runner._start` loop (lines 345-495) with no intervening `cancel()` call
  (`_kick` resets `_cancel_requested` to `False` at each job start, so the
  classifier sees the flag as `False` for every job of an uninterrupted
  batch);
* `Runner.cancel` — the state update performed by `Runner.cancel`
  (lines 280-297); the `SIGINT` side effect applies only to a live process
  and is absent in the idle case studied here.

Machine strings are modelled as Lean `String`; Python's `str.lower` is
modelled by ASCII lowercasing (all patterns the classifier matches are
ASCII), and Python's substring operator `in` by `strContains`.
-/

set_option maxRecDepth 10000

/-- `leadsWith pat s` is true when the character list `pat` is an initial
segment of `s`. Helper for the substring test. -/
def leadsWith : List Char → List Char → Bool
  | [], _ => true
  | _ :: _, [] => false
  | c :: cs, d :: ds => c == d && leadsWith cs ds

/-- `occursIn pat s` is true when `pat` occurs contiguously somewhere in `s`.
Helper for the substring test. -/
def occursIn : List Char → List Char → Bool
  | pat, [] => pat.isEmpty
  | pat, d :: ds => leadsWith pat (d :: ds) || occursIn pat ds

/-- Python's substring operator: `pat in hay`. -/
def strContains (hay pat : String) : Bool := occursIn pat.data hay.data

/-- Python's `str.lower()` restricted to ASCII (every pattern matched by the
classifier is plain ASCII). -/
def lowerStr (s : String) : String := String.mk (s.data.map Char.toLower)

/-- `keep_tail` from `Runner._start` (source lines 403-406): append the line,
and when the window exceeds 300 lines delete the first 60
(`del tail[:60]`). -/
def keep_tail (tail : List String) (line : String) : List String :=
  if 300 < (tail ++ [line]).length then (tail ++ [line]).drop 60
  else tail ++ [line]

/-- The trailing window after feeding a whole sequence of output lines
through `keep_tail`, starting from the empty window. -/
def keepTailAll (lines : List String) : List String := lines.foldl keep_tail []

/-- The failure classification by kind used on both error paths of
`Runner._summarize_one`: `verify_failed` for verify, `repair_failed` for
repair, no category otherwise. -/
def failCls (mode : String) : String :=
  if mode == "verify" then "verify_failed"
  else if mode == "repair" then "repair_failed"
  else ""

/-- `Runner._summarize_one` (source lines 497-566). The read of
`self._cancel_requested` is made an explicit first argument. Returns
`(message, classification_key)`. -/
def summarize_one (cancelRequested : Bool) (mode : String) (rc : Int)
    (tail : List String) (err : Option String) : String × String :=
  match err with
  | some e =>
    if strContains (lowerStr e) "not found" then
      ("Error: 'par2' not found. Install it (Mint/Ubuntu): sudo apt install par2",
        failCls mode)
    else
      ("Error: " ++ e, failCls mode)
  | none =>
    if cancelRequested then ("Cancelled.", "")
    else
      let joined := lowerStr (String.join tail)
      if rc ≠ 0 then
        if mode == "verify" && rc == 1 then
          if strContains joined "repair is required" || strContains joined "missing" then
            ("Verification complete. Repair is required.", "verify_need_repair")
          else
            ("Verification complete.", "verify_ok")
        else
          ("Operation failed (exit code " ++ toString rc ++ "). See log for details.",
            failCls mode)
      else if mode == "create" then
        ("Parity files created successfully.", "")
      else if mode == "verify" then
        if strContains joined "repair is required" || strContains joined "file not found"
            || strContains joined "missing" then
          ("Verification complete. Repair is required.", "verify_need_repair")
        else if strContains joined "all files are correct"
            || strContains joined "repair is not required" then
          ("All files verified successfully. Repair not required.", "verify_ok")
        else
          ("Verification complete.", "verify_ok")
      else if mode == "repair" then
        if strContains joined "repair is not required" then
          ("Repair not required.", "repair_not_required")
        else if strContains joined "repair complete" || strContains joined "repair is complete" then
          ("Repair completed successfully.", "repair_repaired")
        else
          ("Repair complete.", "repair_repaired")
      else
        ("Operation completed successfully.", "")

/-- A job descriptor as enqueued by `run_many`: `(argv, cwd, mode, label)`. -/
structure Job where
  argv : List String
  cwd : Option String
  mode : String
  label : String

/-- A job together with the outcome of running its external process: the exit
code returned by `wait()`, the trailing window accumulated by `keep_tail`
over the process output, and the launch error, if any (in which case the
worker's `rc` keeps its initial value `1`). -/
structure JobRun where
  job : Job
  rc : Int
  tail : List String
  err : Option String

/-- The mutable fields of the `Runner` object (source lines 264-273).
`procRunning` stands for `self._proc is not None and self._proc.poll() is
None`. -/
structure RunnerState where
  procRunning : Bool
  queue : List JobRun
  cancelRequested : Bool
  totalJobs : Nat
  completedJobs : Nat
  batchMode : String
  results : List (String × List String)

/-- `Runner._summarize_one` as the method actually is: a function of the
runner state (of which it reads only `_cancel_requested`) and of the four
arguments `(mode, rc, tail, err)`. -/
def Runner.summarizeOne (s : RunnerState) (mode : String) (rc : Int)
    (tail : List String) (err : Option String) : String × String :=
  summarize_one s.cancelRequested mode rc tail err

/-- `results.get(key, [])` on the results mapping. -/
def resultsGet (rs : List (String × List String)) (key : String) : List String :=
  match rs.find? (fun p => p.1 == key) with
  | some p => p.2
  | none => []

/-- The `"- {x}\n"` item lines of a summary block. -/
def itemLines (xs : List String) : String :=
  String.join (xs.map (fun x => "- " ++ x ++ "\n"))

/-- `Runner._format_summary` (source lines 568-619). -/
def format_summary (mode : String) (total : Nat)
    (results : List (String × List String)) : String :=
  if mode == "verify" then
    let ok := resultsGet results "verify_ok"
    let need := resultsGet results "verify_need_repair"
    let failed := resultsGet results "verify_failed"
    "\n──────── Verification Summary ────────\n"
      ++ "Checked: " ++ toString total ++ " items\n"
      ++ "OK: " ++ toString ok.length ++ "\n"
      ++ "Require repair: " ++ toString need.length ++ "\n"
      ++ (if failed.isEmpty then "" else "Failed: " ++ toString failed.length ++ "\n")
      ++ (if need.isEmpty then "" else "\nItems requiring repair:\n" ++ itemLines need)
      ++ (if failed.isEmpty then "" else "\nFailed items:\n" ++ itemLines failed)
      ++ "─────────────────────────────────────\n"
  else
    let repaired := resultsGet results "repair_repaired"
    let notreq := resultsGet results "repair_not_required"
    let failed := resultsGet results "repair_failed"
    "\n──────── Repair Summary ────────\n"
      ++ "Processed: " ++ toString total ++ " items\n"
      ++ "Repaired: " ++ toString repaired.length ++ "\n"
      ++ "No repair needed: " ++ toString notreq.length ++ "\n"
      ++ (if failed.isEmpty then "" else "Failed: " ++ toString failed.length ++ "\n")
      ++ (if repaired.isEmpty then "" else "\nRepaired items:\n" ++ itemLines repaired)
      ++ (if failed.isEmpty then "" else "\nFailed items:\n" ++ itemLines failed)
      ++ "────────────────────────────────\n"

/-- The fresh results mapping installed by `run_many` (source lines 313-320). -/
def initResults : List (String × List String) :=
  [("verify_ok", []), ("verify_need_repair", []), ("verify_failed", []),
   ("repair_repaired", []), ("repair_not_required", []), ("repair_failed", [])]

/-- `self._results[classification].append(label)`: append `label` to the list
bound to `key`, or `none` when the key is absent (a Python `KeyError`). -/
def addResult : List (String × List String) → String → String →
    Option (List (String × List String))
  | [], _, _ => none
  | (k, v) :: rest, key, label =>
    if k == key then some ((k, v ++ [label]) :: rest)
    else (addResult rest key label).map (fun r => (k, v) :: r)

/-- The `on_done_msg` trace of draining a queue of jobs to completion: each
job contributes the message from `summarize_one` (with `_cancel_requested`
freshly reset to `False` by `_kick`, source line 356), its label is tallied
into the results mapping when the classification is non-empty (source lines
486-489), and when the queue empties the batch summary is emitted iff at
least one job completed and the batch mode is verify or repair (source lines
388-390). A `KeyError` on the results update would kill the worker thread
before it delivers the message or kicks the next job; that is the `none`
branch. -/
def runJobs (mode : String) : Nat → List (String × List String) → List JobRun → List String
  | completed, results, [] =>
    if (completed != 0) && (mode == "verify" || mode == "repair") then
      [format_summary mode completed results]
    else []
  | completed, results, jr :: rest =>
    let mc := summarize_one false jr.job.mode jr.rc jr.tail jr.err
    if mc.2 == "" then
      mc.1 :: runJobs mode (completed + 1) results rest
    else
      match addResult results mc.2 jr.job.label with
      | some rs => mc.1 :: runJobs mode (completed + 1) rs rest
      | none => []

/-- The `on_done_msg` trace of `Runner.run_many` (source lines 300-333)
followed by processing to completion: an empty batch is a no-op; otherwise the
batch mode is the first job's mode, the counters and results are reset, the
new jobs extend the existing queue and the combined queue is drained. -/
def runManyTrace (s : RunnerState) (jobs : List JobRun) : List String :=
  match jobs with
  | [] => []
  | j0 :: _ => runJobs j0.job.mode 0 initResults (s.queue ++ jobs)

/-- The state update of `Runner.cancel` (source lines 280-297): set the
cancel flag, clear the queue, zero both counters. The `SIGINT` is sent only
when a process is live. -/
def Runner.cancel (s : RunnerState) : RunnerState :=
  { s with cancelRequested := true, queue := [], totalJobs := 0, completedJobs := 0 }

/-- An idle runner: no live process and an empty queue. The code zeroes both
counters whenever the queue drains (`Runner._kick`, source lines 384-386) and
they start at zero, so every idle state also has zero counters; that
invariant is folded into the definition. -/
def RunnerState.isIdle (s : RunnerState) : Prop :=
  s.procRunning = false ∧ s.queue = [] ∧ s.totalJobs = 0 ∧ s.completedJobs = 0

/-- The state of a freshly constructed `Runner` (source lines 264-273). -/
def initialState : RunnerState :=
  { procRunning := false, queue := [], cancelRequested := false,
    totalJobs := 0, completedJobs := 0, batchMode := "", results := [] }

/-- Length of one `keep_tail` step. -/
lemma keep_tail_length (tail : List String) (line : String) :
    (keep_tail tail line).length =
      if 300 < tail.length + 1 then tail.length + 1 - 60 else tail.length + 1 := by
  unfold keep_tail
  by_cases h : 300 < tail.length + 1
  · rw [if_pos (by simpa using h), if_pos h]
    simp only [List.length_drop, List.length_append, List.length_cons, List.length_nil]
  · rw [if_neg (by simpa using h), if_neg h]
    simp only [List.length_append, List.length_cons, List.length_nil]

/-- The window never exceeds 300 lines. -/
lemma foldl_keep_tail_length_le (ls : List String) :
    ∀ acc : List String, acc.length ≤ 300 →
      (List.foldl keep_tail acc ls).length ≤ 300 := by
  induction ls with
  | nil => intro acc h; simpa using h
  | cons l ls ih =>
    intro acc h
    rw [List.foldl_cons]
    exact ih _ (by rw [keep_tail_length]; split <;> omega)

lemma suffix_append_same {α : Type} {x y : List α} (h : x <:+ y) (z : List α) :
    x ++ z <:+ y ++ z := by
  obtain ⟨w, hw⟩ := h
  exact ⟨w, by rw [← List.append_assoc, hw]⟩

lemma keep_tail_suffix (acc : List String) (l : String) :
    keep_tail acc l <:+ acc ++ [l] := by
  unfold keep_tail
  split
  · exact List.drop_suffix _ _
  · exact List.suffix_refl _

/-- The window is always a suffix of the input lines. -/
lemma foldl_keep_tail_suffix (ls : List String) :
    ∀ acc : List String, List.foldl keep_tail acc ls <:+ acc ++ ls := by
  induction ls with
  | nil => intro acc; simp
  | cons l ls ih =>
    intro acc
    rw [List.foldl_cons]
    have h2 := suffix_append_same (keep_tail_suffix acc l) ls
    have h3 : (acc ++ [l]) ++ ls = acc ++ (l :: ls) := by simp
    exact (ih (keep_tail acc l)).trans (h3 ▸ h2)

/-- As long as the cap is not reached, `keep_tail` just appends. -/
lemma foldl_keep_tail_of_le (ls : List String) :
    ∀ acc : List String, acc.length + ls.length ≤ 300 →
      List.foldl keep_tail acc ls = acc ++ ls := by
  induction ls with
  | nil => intro acc _; simp
  | cons l ls ih =>
    intro acc h
    rw [List.foldl_cons]
    have hlen : ¬ 300 < (acc ++ [l]).length := by
      simp only [List.length_cons] at h
      simp only [List.length_append, List.length_cons, List.length_nil]
      omega
    have hk : keep_tail acc l = acc ++ [l] := by
      unfold keep_tail; rw [if_neg hlen]
    rw [hk, ih (acc ++ [l]) (by simp only [List.length_cons] at h; simp; omega)]
    simp

/-- The window retains at least `min 241 N` of the `N` lines seen. -/
lemma foldl_keep_tail_length_ge (ls : List String) :
    ∀ acc : List String, acc.length ≤ 300 →
      min 241 (acc.length + ls.length) ≤ (List.foldl keep_tail acc ls).length := by
  induction ls with
  | nil => intro acc _; simp
  | cons l ls ih =>
    intro acc h
    rw [List.foldl_cons]
    have hlen := keep_tail_length acc l
    have hle : (keep_tail acc l).length ≤ 300 := by rw [hlen]; split <;> omega
    have key : min 241 (acc.length + (l :: ls).length)
        ≤ min 241 ((keep_tail acc l).length + ls.length) := by
      rw [hlen]
      simp only [List.length_cons]
      split <;> omega
    exact key.trans (ih (keep_tail acc l) hle)

/-- C4 (amended): after processing any sequence of `N` lines the retained
window never exceeds the 300-line cap, it is a suffix of the input (the most
recent lines, relative order preserved), it keeps at least `min N 241`
lines, and for `N ≤ 300` it keeps all `N` lines. The original claim that the
most recent `min N 300` lines are always retained fails once the cap is
exceeded (see the counterexample): the trim at 301 lines keeps only 241. -/
theorem spec_c4 (lines : List String) :
    (keepTailAll lines).length ≤ 300
    ∧ keepTailAll lines <:+ lines
    ∧ min lines.length 241 ≤ (keepTailAll lines).length
    ∧ keepTailAll (lines.take 300) = lines.take 300 := by
  refine ⟨?_, ?_, ?_, ?_⟩
  · exact foldl_keep_tail_length_le lines [] (by simp)
  · simpa using foldl_keep_tail_suffix lines []
  · have h := foldl_keep_tail_length_ge lines [] (by simp)
    simp only [List.length_nil, Nat.zero_add] at h
    rw [keepTailAll]
    omega
  · exact foldl_keep_tail_of_le (lines.take 300) []
      (by simp only [List.length_nil, Nat.zero_add, List.length_take]; omega)

/-- After 301 lines the window holds exactly 241 lines. -/
lemma keepTailAll_301_length : (keepTailAll (List.replicate 301 "x")).length = 241 := by
  have h300 : List.foldl keep_tail [] (List.replicate 300 "x") = List.replicate 300 "x" := by
    simpa using foldl_keep_tail_of_le (List.replicate 300 "x") [] (by simp)
  have h : keepTailAll (List.replicate 301 "x") = keep_tail (List.replicate 300 "x") "x" := by
    rw [keepTailAll, show (301 : Nat) = 300 + 1 from rfl, List.replicate_succ',
      List.foldl_append, h300, List.foldl_cons, List.foldl_nil]
  rw [h, keep_tail_length]
  simp

/-- C4 counterexample: feeding 301 lines does not retain the most recent
`min 301 300 = 300` lines — only 241 lines survive the trim. -/
theorem spec_c4_counterexample :
    keepTailAll (List.replicate 301 "x")
      ≠ (List.replicate 301 "x").drop (301 - min 301 300) := by
  intro heq
  have hl := congrArg List.length heq
  rw [keepTailAll_301_length] at hl
  simp only [List.length_drop, List.length_replicate] at hl
  omega

/-- C3 (amended): the window has capacity 300 lines; when a new line pushes
it past the capacity, the oldest 60 lines (not 240) are discarded, so 241
lines (not about 60) remain retained. -/
theorem spec_c3 (tail : List String) (line : String) (h : tail.length = 300) :
    keep_tail tail line = (tail ++ [line]).drop 60
    ∧ keep_tail tail line = tail.drop 60 ++ [line]
    ∧ (keep_tail tail line).length = 241 := by
  have hc : 300 < (tail ++ [line]).length := by simp [h]
  refine ⟨?_, ?_, ?_⟩
  · unfold keep_tail; rw [if_pos hc]
  · unfold keep_tail
    rw [if_pos hc, List.drop_append_of_le_length (by omega)]
  · rw [keep_tail_length, h]
    norm_num

theorem spec_c3_witness :
    keep_tail (List.replicate 300 "a") "b" = (List.replicate 300 "a" ++ ["b"]).drop 60 :=
  (spec_c3 (List.replicate 300 "a") "b" (by simp)).1

/-- C3 counterexample: after 301 lines the window retains 241 lines, not the
claimed "approximately 60" (301 lines minus the claimed 240 discarded would
be 61). -/
theorem spec_c3_counterexample :
    (keepTailAll (List.replicate 301 "x")).length = 241
    ∧ ¬ (keepTailAll (List.replicate 301 "x")).length = 61 := by
  refine ⟨keepTailAll_301_length, ?_⟩
  rw [keepTailAll_301_length]
  omega

/-- Every classification key produced by the classifier is either empty or
one of the six tally keys. -/
lemma summarize_cls_mem (c : Bool) (m : String) (rc : Int) (tail : List String)
    (e : Option String) :
    (summarize_one c m rc tail e).2 ∈
      ["", "verify_ok", "verify_need_repair", "verify_failed",
       "repair_repaired", "repair_not_required", "repair_failed"] := by
  unfold summarize_one failCls
  repeat' split <;> try simp
  all_goals tauto

/-- A non-empty classification key is a key of the fresh results mapping. -/
lemma cls_mem_initResults (c : Bool) (m : String) (rc : Int) (tail : List String)
    (e : Option String) (h : (summarize_one c m rc tail e).2 ≠ "") :
    (summarize_one c m rc tail e).2 ∈ initResults.map Prod.fst := by
  have hm := summarize_cls_mem c m rc tail e
  simp only [List.mem_cons, List.not_mem_nil, or_false] at hm
  rcases hm with h' | h' | h' | h' | h' | h' | h'
  · exact absurd h' h
  all_goals rw [h']; decide

/-- `addResult` succeeds on every key present in the mapping. -/
lemma addResult_isSome (rs : List (String × List String)) (key label : String)
    (h : key ∈ rs.map Prod.fst) : (addResult rs key label).isSome = true := by
  induction rs with
  | nil => simp at h
  | cons p rest ih =>
    obtain ⟨k, v⟩ := p
    simp only [List.map_cons, List.mem_cons] at h
    by_cases hk : k = key
    · simp [addResult, hk]
    · have h2 : key ∈ rest.map Prod.fst := by
        rcases h with h | h
        · exact absurd h.symm hk
        · exact h
      have h3 := ih h2
      rcases Option.isSome_iff_exists.mp h3 with ⟨r, hr⟩
      simp [addResult, hk, hr]

/-- `addResult` never changes the key set of the mapping. -/
lemma addResult_keys : ∀ (rs rs' : List (String × List String)) (key label : String),
    addResult rs key label = some rs' → rs'.map Prod.fst = rs.map Prod.fst := by
  intro rs
  induction rs with
  | nil => intro rs' key label h; simp [addResult] at h
  | cons p rest ih =>
    intro rs' key label h
    obtain ⟨k, v⟩ := p
    simp only [addResult] at h
    by_cases hk : (k == key) = true
    · rw [if_pos hk] at h
      have h2 := Option.some.inj h
      rw [← h2]
      simp
    · rw [if_neg hk] at h
      rcases Option.map_eq_some'.mp h with ⟨r, hr, hrs⟩
      rw [← hrs]
      simp only [List.map_cons]
      rw [ih r key label hr]

/-- C2: a Verify job that launched, was not cancelled, and exited with code 1
is classified `verify_need_repair` when the lowercased joined trailing window
contains a repair-required or missing indicator, and `verify_ok` otherwise;
it is never classified `verify_failed`. -/
theorem spec_c2 (tail : List String) :
    (summarize_one false "verify" 1 tail none
      = if strContains (lowerStr (String.join tail)) "repair is required"
            || strContains (lowerStr (String.join tail)) "missing"
        then ("Verification complete. Repair is required.", "verify_need_repair")
        else ("Verification complete.", "verify_ok"))
    ∧ (summarize_one false "verify" 1 tail none).2 ≠ "verify_failed" := by
  have h : summarize_one false "verify" 1 tail none
      = if strContains (lowerStr (String.join tail)) "repair is required"
            || strContains (lowerStr (String.join tail)) "missing"
        then ("Verification complete. Repair is required.", "verify_need_repair")
        else ("Verification complete.", "verify_ok") := by
    simp [summarize_one]
  refine ⟨h, ?_⟩
  rw [h]
  split <;> decide

/-- C5: when cancellation was requested and there was no launch error, the
classifier returns the "Cancelled." message with no category, for every
kind, exit code and trailing window. -/
theorem spec_c5 (m : String) (rc : Int) (tail : List String) :
    summarize_one true m rc tail none = ("Cancelled.", "") := by
  simp [summarize_one]

/-- C8: a Verify job that launched, was not cancelled, and exited with code 0
is classified by inspecting the lowercased joined trailing window:
repair-required / file-not-found / missing markers give `verify_need_repair`;
otherwise all-correct / repair-not-required markers give `verify_ok` with the
"Repair not required." message; otherwise the generic completion message with
`verify_ok`. The category is always `verify_need_repair` or `verify_ok`. -/
theorem spec_c8 (tail : List String) :
    (summarize_one false "verify" 0 tail none
      = if strContains (lowerStr (String.join tail)) "repair is required"
            || strContains (lowerStr (String.join tail)) "file not found"
            || strContains (lowerStr (String.join tail)) "missing"
        then ("Verification complete. Repair is required.", "verify_need_repair")
        else if strContains (lowerStr (String.join tail)) "all files are correct"
            || strContains (lowerStr (String.join tail)) "repair is not required"
        then ("All files verified successfully. Repair not required.", "verify_ok")
        else ("Verification complete.", "verify_ok"))
    ∧ ((summarize_one false "verify" 0 tail none).2 = "verify_need_repair"
        ∨ (summarize_one false "verify" 0 tail none).2 = "verify_ok") := by
  have h : summarize_one false "verify" 0 tail none
      = if strContains (lowerStr (String.join tail)) "repair is required"
            || strContains (lowerStr (String.join tail)) "file not found"
            || strContains (lowerStr (String.join tail)) "missing"
        then ("Verification complete. Repair is required.", "verify_need_repair")
        else if strContains (lowerStr (String.join tail)) "all files are correct"
            || strContains (lowerStr (String.join tail)) "repair is not required"
        then ("All files verified successfully. Repair not required.", "verify_ok")
        else ("Verification complete.", "verify_ok") := by
    simp [summarize_one]
  refine ⟨h, ?_⟩
  rw [h]
  split
  · left; rfl
  · split
    · right; rfl
    · right; rfl

/-- C7: on a binary-not-found launch error (the error text contains
"not found", as raised at source line 453) the classifier returns the
distinct message with installation guidance, and the category is
`verify_failed` for Verify, `repair_failed` for Repair, and empty for
Create. -/
theorem spec_c7 (c : Bool) (rc : Int) (tail : List String) (e : String)
    (h : strContains (lowerStr e) "not found" = true) :
    summarize_one c "verify" rc tail (some e)
      = ("Error: 'par2' not found. Install it (Mint/Ubuntu): sudo apt install par2",
          "verify_failed")
    ∧ summarize_one c "repair" rc tail (some e)
      = ("Error: 'par2' not found. Install it (Mint/Ubuntu): sudo apt install par2",
          "repair_failed")
    ∧ summarize_one c "create" rc tail (some e)
      = ("Error: 'par2' not found. Install it (Mint/Ubuntu): sudo apt install par2",
          "") := by
  refine ⟨?_, ?_, ?_⟩ <;> simp [summarize_one, failCls, h]

theorem spec_c7_witness :
    (summarize_one false "repair" 1 [] (some "'par2' not found in PATH")).2
      = "repair_failed" := by
  have h := spec_c7 false 1 [] "'par2' not found in PATH" (by decide)
  rw [h.2.1]

/-- C10: every non-empty classification key produced by the classifier is one
of the six keys `run_many` installs in the results mapping, so on any
mapping with those keys the `self._results[classification].append(label)`
update cannot raise a missing-key error. -/
theorem spec_c10 (c : Bool) (m : String) (rc : Int) (tail : List String)
    (e : Option String) (label : String) (rs : List (String × List String))
    (h : rs.map Prod.fst = initResults.map Prod.fst) :
    (summarize_one c m rc tail e).2 = ""
    ∨ ((summarize_one c m rc tail e).2 ∈ rs.map Prod.fst
        ∧ (addResult rs (summarize_one c m rc tail e).2 label).isSome = true) := by
  by_cases hc : (summarize_one c m rc tail e).2 = ""
  · exact Or.inl hc
  · refine Or.inr ⟨?_, ?_⟩
    · rw [h]; exact cls_mem_initResults c m rc tail e hc
    · exact addResult_isSome rs _ label (by rw [h]; exact cls_mem_initResults c m rc tail e hc)

theorem spec_c10_witness :
    (summarize_one false "verify" 0 [] none).2 = ""
    ∨ ((summarize_one false "verify" 0 [] none).2 ∈ initResults.map Prod.fst
        ∧ (addResult initResults (summarize_one false "verify" 0 [] none).2 "Album").isSome
            = true) :=
  spec_c10 false "verify" 0 [] none "Album" initResults rfl

/-- The length of the `on_done_msg` trace of draining a queue: one message
per job, plus the summary exactly when at least one job completed and the
batch mode is verify or repair. Requires the results mapping to have the six
keys installed by `run_many`, so that no tally update can fail. -/
lemma runJobs_length (queue : List JobRun) :
    ∀ (mode : String) (completed : Nat) (results : List (String × List String)),
      results.map Prod.fst = initResults.map Prod.fst →
      (runJobs mode completed results queue).length
        = queue.length
          + (if (completed + queue.length != 0) && (mode == "verify" || mode == "repair")
             then 1 else 0) := by
  induction queue with
  | nil =>
    intro mode completed results _
    simp only [runJobs, List.length_nil, Nat.add_zero, Nat.zero_add]
    split <;> simp
  | cons jr rest ih =>
    intro mode completed results h
    by_cases hc : (summarize_one false jr.job.mode jr.rc jr.tail jr.err).2 = ""
    · have hstep : runJobs mode completed results (jr :: rest)
          = (summarize_one false jr.job.mode jr.rc jr.tail jr.err).1
              :: runJobs mode (completed + 1) results rest := by
        simp only [runJobs]
        rw [if_pos (by simp [hc])]
      rw [hstep, List.length_cons, ih mode (completed + 1) results h]
      have harith : completed + 1 + rest.length = completed + (rest.length + 1) := by omega
      simp only [List.length_cons, harith]
      by_cases hC : ((completed + (rest.length + 1) != 0)
          && (mode == "verify" || mode == "repair")) = true
      · rw [if_pos hC]
      · rw [if_neg hC]
    · have hmem : (summarize_one false jr.job.mode jr.rc jr.tail jr.err).2
          ∈ results.map Prod.fst := by
        rw [h]
        exact cls_mem_initResults false jr.job.mode jr.rc jr.tail jr.err hc
      rcases Option.isSome_iff_exists.mp
        (addResult_isSome results _ jr.job.label hmem) with ⟨rs2, hrs2⟩
      have hkeys2 : rs2.map Prod.fst = initResults.map Prod.fst := by
        have hk := addResult_keys results rs2 _ jr.job.label hrs2
        rw [hk, h]
      have hstep : runJobs mode completed results (jr :: rest)
          = (summarize_one false jr.job.mode jr.rc jr.tail jr.err).1
              :: runJobs mode (completed + 1) rs2 rest := by
        simp only [runJobs]
        rw [if_neg (by simp [hc]), hrs2]
      rw [hstep, List.length_cons, ih mode (completed + 1) rs2 hkeys2]
      have harith : completed + 1 + rest.length = completed + (rest.length + 1) := by omega
      simp only [List.length_cons, harith]
      by_cases hC : ((completed + (rest.length + 1) != 0)
          && (mode == "verify" || mode == "repair")) = true
      · rw [if_pos hC]
      · rw [if_neg hC]

/-- C1: for a non-empty batch started on an idle runner and processed to
completion, the `on_done_msg` callback receives exactly one message per job
(success, failure or launch error alike), plus exactly one batch-summary
message iff the batch mode (the first job's mode) is verify or repair; at
least one job completed holds automatically since the batch is non-empty. -/
theorem spec_c1 (s : RunnerState) (j0 : JobRun) (rest : List JobRun)
    (_hproc : s.procRunning = false) (hq : s.queue = []) :
    (runManyTrace s (j0 :: rest)).length
      = (j0 :: rest).length
        + (if j0.job.mode == "verify" || j0.job.mode == "repair" then 1 else 0) := by
  have h1 : runManyTrace s (j0 :: rest)
      = runJobs j0.job.mode 0 initResults (s.queue ++ (j0 :: rest)) := by
    simp only [runManyTrace]
  rw [h1, hq, List.nil_append,
    runJobs_length (j0 :: rest) j0.job.mode 0 initResults rfl]
  have hcond : (0 + (j0 :: rest).length != 0) = true := by simp
  rw [hcond, Bool.true_and]

/-- A sample verify job run used to instantiate the batch theorems. -/
def sampleVerifyRun : JobRun :=
  { job := { argv := ["par2", "V", "Album.par2"], cwd := some "/music/Album",
             mode := "verify", label := "Album" },
    rc := 0, tail := ["All files are correct\n"], err := none }

theorem spec_c1_witness : (runManyTrace initialState [sampleVerifyRun]).length = 2 := by
  have h := spec_c1 initialState sampleVerifyRun [] rfl rfl
  rw [h]
  decide

/-- A runner state with cancellation requested, used as a concrete input. -/
def stateWithCancel : RunnerState :=
  { procRunning := false, queue := [], cancelRequested := true,
    totalJobs := 0, completedJobs := 0, batchMode := "", results := [] }

/-- `stateWithCancel` with the cancel flag cleared and nothing else changed. -/
def stateNoCancel : RunnerState := { stateWithCancel with cancelRequested := false }

/-- A state agreeing with `stateWithCancel` on the cancel flag but differing
in every other mutable field. -/
def stateOtherFields : RunnerState :=
  { procRunning := true, queue := [], cancelRequested := true,
    totalJobs := 7, completedJobs := 3, batchMode := "verify", results := initResults }

/-- C6 (amended): the classifier is a pure function of
`(kind, exitCode, trailingLines, launchError)` together with the runner's
`_cancel_requested` flag read during classification: two invocations on
states agreeing on that flag return the same pair, whatever the remaining
state. The original claim — independence from all state beyond the four
inputs — fails because of the flag (see the counterexample). -/
theorem spec_c6 (s1 s2 : RunnerState) (m : String) (rc : Int) (tail : List String)
    (e : Option String) (h : s1.cancelRequested = s2.cancelRequested) :
    Runner.summarizeOne s1 m rc tail e = Runner.summarizeOne s2 m rc tail e := by
  unfold Runner.summarizeOne
  rw [h]

theorem spec_c6_witness :
    Runner.summarizeOne stateWithCancel "verify" 0 [] none
      = Runner.summarizeOne stateOtherFields "verify" 0 [] none :=
  spec_c6 stateWithCancel stateOtherFields "verify" 0 [] none rfl

/-- C6 counterexample: two states with identical `(kind, exitCode,
trailingLines, launchError) = ("verify", 0, [], none)` but different
`_cancel_requested` flags classify differently ("Cancelled." with no
category versus "Verification complete." with `verify_ok`). -/
theorem spec_c6_counterexample :
    ¬ (Runner.summarizeOne stateWithCancel "verify" 0 [] none
        = Runner.summarizeOne stateNoCancel "verify" 0 [] none) := by decide

/-- C9: cancelling an idle runner (no live process, empty queue, and hence —
by the drain-time resets in `_kick` — zero counters) only sets the
`_cancel_requested` flag: queue, counters, results and the process flag are
unchanged, and the `on_done_msg` trace of any subsequently enqueued batch is
unchanged (the flag is reset before any job is classified, so it is not
observable in later behaviour). -/
theorem spec_c9 (s : RunnerState) (h : s.isIdle) :
    Runner.cancel s = { s with cancelRequested := true }
    ∧ (Runner.cancel s).queue = s.queue
    ∧ (Runner.cancel s).totalJobs = s.totalJobs
    ∧ (Runner.cancel s).completedJobs = s.completedJobs
    ∧ (Runner.cancel s).results = s.results
    ∧ (Runner.cancel s).procRunning = s.procRunning
    ∧ ∀ jobs : List JobRun, runManyTrace (Runner.cancel s) jobs = runManyTrace s jobs := by
  obtain ⟨hp, hq, ht, hc⟩ := h
  have hcan : Runner.cancel s = { s with cancelRequested := true } := by
    cases s
    simp_all [Runner.cancel]
  refine ⟨hcan, by rw [hcan], by rw [hcan], by rw [hcan], by rw [hcan], by rw [hcan], ?_⟩
  intro jobs
  have hqq : (Runner.cancel s).queue = s.queue := by rw [hcan]
  cases jobs with
  | nil => rfl
  | cons j r =>
    simp only [runManyTrace]
    rw [hqq]

theorem spec_c9_witness :
    Runner.cancel initialState = { initialState with cancelRequested := true } :=
  (spec_c9 initialState ⟨rfl, rfl, rfl, rfl⟩).1
